import Mathlib

/-!
Verification of the EWS delegation manager
(`email_summarizer/app/utils/ews_delegation.py`).

The Python module manages Exchange inbox-delegation permissions over the
EWS SOAP API: `get_inbox_level` lists delegates with their inbox
permission level, `add_delegate_inbox_reviewer` and
`update_delegate_inbox` issue the write operations, and
`ensure_inbox_reviewer` reconciles the desired state (target delegate
holds Reviewer access).

The embedding below mirrors the source:
* parsed XML documents are modelled by the `Element` tree together with
  the `ElementTree` query primitives the source uses
  (`findall(".//tag")`, `find("./a/b")`, `find(".//tag")`,
  `attrib.get`);
* the HTTP layer (`_post_ews`) is modelled by a response record and an
  error-classification function returning `Except`;
* the reconciliation logic (`ensure_inbox_reviewer`) is a function over
  an abstract server interface, so it can be instantiated both with
  fixed write outcomes and with a stateful mock server.
-/

set_option autoImplicit false

namespace EwsDelegation

/-! Python string primitives used by the source, modelled structurally
over the character list of a string (Python indexes and iterates
strings by code point). -/

/-- Python `str.lower()` restricted to its ASCII behaviour: lower-case
every character. -/
def pyLower (s : String) : String :=
  String.mk (s.data.map Char.toLower)

/-- Python `str.strip()` with no argument: remove leading and trailing
whitespace. -/
def pyStrip (s : String) : String :=
  String.mk (((s.data.dropWhile Char.isWhitespace).reverse.dropWhile
    Char.isWhitespace).reverse)

/-- Python `str.startswith(pre)`. -/
def pyStartsWith (s pre : String) : Bool :=
  pre.data.isPrefixOf s.data

/-- Python `s[:n]`: the first `n` characters. -/
def pyTake (s : String) (n : Nat) : String :=
  String.mk (s.data.take n)

/-- A parsed XML element, as produced by `xml.etree.ElementTree`:
a (namespace-qualified) tag, an attribute list, optional text, and
child elements in document order. -/
inductive Element where
  | mk (tag : String) (attrib : List (String × String)) (text : Option String)
       (children : List Element)

def Element.tag : Element → String
  | .mk t _ _ _ => t

def Element.attrib : Element → List (String × String)
  | .mk _ a _ _ => a

def Element.text : Element → Option String
  | .mk _ _ x _ => x

def Element.children : Element → List Element
  | .mk _ _ _ c => c

mutual

/-- The element followed by all of its descendants, in document order. -/
def Element.preorder : Element → List Element
  | .mk t a x c => .mk t a x c :: Element.preorderList c

def Element.preorderList : List Element → List Element
  | [] => []
  | e :: es => Element.preorder e ++ Element.preorderList es

end

/-- All proper descendants of an element, in document order. -/
def Element.descendants (e : Element) : List Element :=
  Element.preorderList e.children

/-- `ElementTree` `findall(".//tag")`: every descendant with the given
qualified tag, in document order (the root itself is not considered). -/
def Element.findallDesc (e : Element) (tag : String) : List Element :=
  e.descendants.filter (fun d => d.tag == tag)

/-- `ElementTree` `find(".//tag")`: the first descendant with the given
qualified tag, or `none`. -/
def Element.findDesc (e : Element) (tag : String) : Option Element :=
  (e.findallDesc tag).head?

/-- Children of an element carrying the given qualified tag. -/
def Element.childrenTagged (e : Element) (tag : String) : List Element :=
  e.children.filter (fun c => c.tag == tag)

/-- `ElementTree` `find("./t1/t2")`: among the `t1`-tagged children's
`t2`-tagged children (document order), the first one, or `none`. -/
def Element.findPath2 (e : Element) (t1 t2 : String) : Option Element :=
  ((e.childrenTagged t1).flatMap (fun c => c.childrenTagged t2)).head?

/-- `attrib.get(key)` on an element: first binding of the key. -/
def Element.attrGet (e : Element) (key : String) : Option String :=
  (e.attrib.find? (fun p => p.1 == key)).map (fun p => p.2)

/-! Namespace-qualified tag constants.  `ElementTree` resolves a path
step `t:Name` against the namespace map `NS` to the qualified tag
`{uri}Name`; the source's maps are
`NS_M = {"m": ".../messages"}` and `NS_T = {"t": ".../types"}`. -/

def nsT : String := "\x7bhttp://schemas.microsoft.com/exchange/services/2006/types\x7d"

def nsM : String := "\x7bhttp://schemas.microsoft.com/exchange/services/2006/messages\x7d"

def tDelegateUser : String := nsT ++ "DelegateUser"

def tUserId : String := nsT ++ "UserId"

def tPrimarySmtpAddress : String := nsT ++ "PrimarySmtpAddress"

def tDelegatePermissions : String := nsT ++ "DelegatePermissions"

def tInboxFolderPermissionLevel : String := nsT ++ "InboxFolderPermissionLevel"

def mAddDelegateResponse : String := nsM ++ "AddDelegateResponse"

def mUpdateDelegateResponse : String := nsM ++ "UpdateDelegateResponse"

def mResponseCode : String := nsM ++ "ResponseCode"

/-- Parsing part of `get_inbox_level` (lines 118-123 of the source):
iterate over `root.findall(".//t:DelegateUser")`; for each entry look up
`./t:UserId/t:PrimarySmtpAddress`, skip the entry when the element is
missing or its text strips to empty, otherwise emit the lower-cased
address paired with the text of
`./t:DelegatePermissions/t:InboxFolderPermissionLevel` (or `none` when
that element is absent). -/
def get_inbox_level (root : Element) : List (String × Option String) :=
  (root.findallDesc tDelegateUser).filterMap (fun du =>
    match du.findPath2 tUserId tPrimarySmtpAddress with
    | none => none
    | some upn =>
      if pyStrip (upn.text.getD "") == "" then
        none
      else
        some (pyLower (upn.text.getD ""),
          (du.findPath2 tDelegatePermissions tInboxFolderPermissionLevel).bind
            Element.text))

/-- Parsing part of `add_delegate_inbox_reviewer` (lines 161-166): find
`.//m:AddDelegateResponse`; success iff it exists and its
`ResponseClass` attribute equals `"Success"`, with the fixed message;
otherwise `(false, ·)` with the text of the first `.//m:ResponseCode`
element, or `"UnknownError"` when that element is absent.  The message
is an `Option String` because `code.text` may itself be `None` in the
source. -/
def add_delegate_inbox_reviewer_parse (root : Element) : Bool × Option String :=
  match root.findDesc mAddDelegateResponse with
  | some resp =>
    if resp.attrGet "ResponseClass" == some "Success" then
      (true, some "AddDelegate Success")
    else
      (false, match root.findDesc mResponseCode with
              | some code => code.text
              | none => some "UnknownError")
  | none =>
    (false, match root.findDesc mResponseCode with
            | some code => code.text
            | none => some "UnknownError")

/-- Parsing part of `update_delegate_inbox` (lines 198-203): same
contract as the add operation, keyed on `.//m:UpdateDelegateResponse`
and the message `"UpdateDelegate Success"`. -/
def update_delegate_inbox_parse (root : Element) : Bool × Option String :=
  match root.findDesc mUpdateDelegateResponse with
  | some resp =>
    if resp.attrGet "ResponseClass" == some "Success" then
      (true, some "UpdateDelegate Success")
    else
      (false, match root.findDesc mResponseCode with
              | some code => code.text
              | none => some "UnknownError")
  | none =>
    (false, match root.findDesc mResponseCode with
            | some code => code.text
            | none => some "UnknownError")

/-! Transport layer (`_post_ews`, lines 50-74).  The `requests`
response is modelled by its status code, its `WWW-Authenticate` header
(`headers.get` returns `None` when absent) and its body text. -/

structure HttpResponse where
  status : Nat
  wwwAuthenticate : Option String
  text : String

/-- The distinct raise sites of the transport layer.  The source
raises `ValueError` at the 401 site and at the HTML site (with
distinct message shapes), lets `resp.raise_for_status()` raise
`requests.HTTPError` for statuses in 400-599, and lets
`xml.etree.ElementTree.fromstring` raise `ParseError` on an
unparseable body. -/
inductive EwsError where
  | authenticationError (msg : String)
  | transportError (status : Nat)
  | protocolError (msg : String)
  | malformedResponseError
  deriving DecidableEq

/-- `_post_ews` after the POST returned: a 401 status raises with the
`WWW-Authenticate` header interpolated (Python renders an absent
header as `"None"`); `resp.raise_for_status()` raises exactly for
statuses in 400-599; a body whose stripped text starts with
`"<!DOCTYPE HTML"` or `"<html"` raises the HTML error with the first
100 characters of the body; otherwise the body text is returned. -/
def post_ews (resp : HttpResponse) : Except EwsError String :=
  if resp.status == 401 then
    .error (.authenticationError
      ("401 Unauthorized. WWW-Authenticate: " ++ resp.wwwAuthenticate.getD "None"))
  else if 400 ≤ resp.status ∧ resp.status < 600 then
    .error (.transportError resp.status)
  else if pyStartsWith (pyStrip resp.text) "<!DOCTYPE HTML"
       || pyStartsWith (pyStrip resp.text) "<html" then
    .error (.protocolError
      ("Received HTML response instead of XML. This typically indicates an authentication issue or incorrect EWS URL. Check your credentials and URL. First 100 chars: "
        ++ pyTake resp.text 100))
  else
    .ok resp.text

/-- A transport round trip followed by `ET.fromstring`; the XML
parser (an external collaborator) is passed in as a partial function
returning `none` exactly on unparseable bodies.  A `ParseError`
propagates out of `get_inbox_level` (it is re-raised after the debug
prints) and out of both write operations. -/
def fetch_and_parse (resp : HttpResponse) (fromstring : String → Option Element) :
    Except EwsError Element :=
  match post_ews resp with
  | .error e => .error e
  | .ok body =>
    match fromstring body with
    | none => .error .malformedResponseError
    | some root => .ok root

/-! Reconciliation (`ensure_inbox_reviewer`, lines 205-226), written
over an abstract server interface so that the same definition serves
both the fixed-outcome instantiation and the stateful mock server. -/

/-- A mutating EWS call issued by the reconciler, with its arguments:
`add_delegate_inbox_reviewer(delegate)` (Reviewer level and default
flags) or `update_delegate_inbox(delegate, level)`. -/
inductive EwsWrite where
  | addDelegate (delegate : String)
  | updateDelegate (delegate : String) (level : String)
  deriving DecidableEq

/-- The server operations `ensure_inbox_reviewer` calls: the read
yields the `(lower-cased address, optional level)` pairs emitted by
`get_inbox_level`, and the two writes return their
`(success, message)` outcome, possibly changing server state. -/
structure EwsOps (σ : Type) where
  read : σ → List (String × Option String)
  add : σ → String → σ × (Bool × String)
  update : σ → String → String → σ × (Bool × String)

/-- `ensure_inbox_reviewer(delegate_upn)`: scan the read sequence for
the first entry whose address equals `delegate_upn.lower()` and
remember its level (`found_level` stays `None` both when no entry
matches and when the matching entry's level is `None`); if
`found_level is None` call the add operation, else if it differs from
`"Reviewer"` call the update operation with `"Reviewer"`, else return
`(True, "Already Reviewer")`.  The result carries the server state,
the returned outcome, and the trace of mutating calls issued. -/
def ensure_inbox_reviewer {σ : Type} (ops : EwsOps σ) (s : σ) (delegate_upn : String) :
    σ × (Bool × String) × List EwsWrite :=
  let found_level : Option String :=
    ((ops.read s).find? (fun p => p.1 == pyLower delegate_upn)).bind (fun p => p.2)
  match found_level with
  | none =>
    let (s', r) := ops.add s delegate_upn
    (s', r, [EwsWrite.addDelegate delegate_upn])
  | some level =>
    if level != "Reviewer" then
      let (s', r) := ops.update s delegate_upn "Reviewer"
      (s', r, [EwsWrite.updateDelegate delegate_upn "Reviewer"])
    else
      (s, (true, "Already Reviewer"), [])

/-- Instantiation of the server interface whose state is the delegate
list the read step returns verbatim, and whose writes leave it
unchanged and return fixed outcomes: this exposes exactly which write
`ensure_inbox_reviewer` issues and whose outcome it returns. -/
def pureOps (addRes updRes : Bool × String) : EwsOps (List (String × Option String)) where
  read := fun s => s
  add := fun s _ => (s, addRes)
  update := fun s _ _ => (s, updRes)

/-! Mock server.  Modelled from the spec's testable properties: a
"stable mock server whose writes succeed and take effect".  Its state
is the list of delegate records `(stored address, optional inbox
level)`; the read emits each record with the address lower-cased,
exactly as `get_inbox_level` emits addresses. -/

abbrev MockServer : Type := List (String × Option String)

/-- Modelled from the spec: the read step of the mock server; emits
every delegate record with its address lower-cased, as
`get_inbox_level` does. -/
def mockRead (s : MockServer) : List (String × Option String) :=
  s.map (fun e => (pyLower e.1, e.2))

/-- Modelled from the spec: a succeeding, effective `AddDelegate` with
Reviewer inbox level — after it, the target delegate holds Reviewer
access: an existing record (case-insensitive address match) has its
level set to Reviewer, otherwise a fresh Reviewer record is
appended. -/
def mockAdd (s : MockServer) (d : String) : MockServer × (Bool × String) :=
  (if s.any (fun e => pyLower e.1 == pyLower d) then
     s.map (fun e => if pyLower e.1 == pyLower d then (e.1, some "Reviewer") else e)
   else
     s ++ [(d, some "Reviewer")],
   (true, "AddDelegate Success"))

/-- Modelled from the spec: a succeeding, effective `UpdateDelegate`:
every record matching the target address (case-insensitively) has its
inbox level set to the requested level. -/
def mockUpdate (s : MockServer) (d : String) (level : String) : MockServer × (Bool × String) :=
  (s.map (fun e => if pyLower e.1 == pyLower d then (e.1, some level) else e),
   (true, "UpdateDelegate Success"))

/-- The mock server packaged as the server interface. -/
def mockOps : EwsOps MockServer where
  read := mockRead
  add := mockAdd
  update := mockUpdate

/-! Request builders.  The source builds the SOAP bodies with f-strings
that interpolate the owner address, delegate address, permission level
and meeting-delivery policy verbatim (no XML escaping); the embeddings
below are the same templates with `++` at the interpolation points. -/

/-- `_soap_header` (line 84). -/
def soap_header : String :=
  "<soap:Header><t:RequestServerVersion Version=\"Exchange2010_SP2\"/></soap:Header>"

/-- Python's `str(b).lower()` for a `bool`. -/
def pyBoolStr (b : Bool) : String :=
  if b then "true" else "false"

/-- The envelope opening shared by the three builders (first two lines
of each f-string template). -/
def envelopeOpen : String :=
  "<?xml version=\"1.0\" encoding=\"utf-8\"?>\n<soap:Envelope xmlns:soap=\"http://schemas.xmlsoap.org/soap/envelope/\" xmlns:t=\"http://schemas.microsoft.com/exchange/services/2006/types\" xmlns:m=\"http://schemas.microsoft.com/exchange/services/2006/messages\">\n"

/-- `GetDelegate` template, up to the owner interpolation point. -/
def getReqA : String :=
  "\n<soap:Body>\n<m:GetDelegate IncludePermissions=\"true\">\n<m:Mailbox><t:EmailAddress>"

/-- `GetDelegate` template, after the owner interpolation point. -/
def getReqB : String :=
  "</t:EmailAddress></m:Mailbox>\n<m:UserIds>\n<!-- 不指定具体 delegate，GetDelegate 会返回所有委派。如需只查某个 delegate，可在这里放 <t:UserId> -->\n</m:UserIds>\n</m:GetDelegate>\n</soap:Body>\n</soap:Envelope>"

/-- The `GetDelegate` request body (lines 94-105). -/
def get_delegate_request (owner_upn : String) : String :=
  envelopeOpen ++ soap_header ++ getReqA ++ owner_upn ++ getReqB

/-- `AddDelegate` template pieces between its interpolation points
(owner, delegate, `str(receive_copies).lower()`,
`str(view_private).lower()`, `deliver_meeting`). -/
def addReqA : String :=
  "\n<soap:Body>\n<m:AddDelegate>\n<m:Mailbox><t:EmailAddress>"

def addReqB : String :=
  "</t:EmailAddress></m:Mailbox>\n<m:DelegateUsers>\n<t:DelegateUser>\n<t:UserId><t:PrimarySmtpAddress>"

def addReqC : String :=
  "</t:PrimarySmtpAddress></t:UserId>\n<t:DelegatePermissions>\n<t:InboxFolderPermissionLevel>Reviewer</t:InboxFolderPermissionLevel>\n</t:DelegatePermissions>\n<t:ReceiveCopiesOfMeetingMessages>"

def addReqD : String :=
  "</t:ReceiveCopiesOfMeetingMessages>\n<t:ViewPrivateItems>"

def addReqE : String :=
  "</t:ViewPrivateItems>\n</t:DelegateUser>\n</m:DelegateUsers>\n<m:DeliverMeetingRequests>"

def addReqF : String :=
  "</m:DeliverMeetingRequests>\n</m:AddDelegate>\n</soap:Body>\n</soap:Envelope>"

/-- The `AddDelegate` request body (lines 140-159). -/
def add_delegate_request (owner_upn delegate_upn : String)
    (receive_copies view_private : Bool) (deliver_meeting : String) : String :=
  envelopeOpen ++ soap_header ++ addReqA ++ owner_upn ++ addReqB ++ delegate_upn ++
    addReqC ++ pyBoolStr receive_copies ++ addReqD ++ pyBoolStr view_private ++
    addReqE ++ deliver_meeting ++ addReqF

/-- `UpdateDelegate` template pieces between its interpolation points
(owner, delegate, level). -/
def updReqA : String :=
  "\n<soap:Body>\n<m:UpdateDelegate>\n<m:Mailbox><t:EmailAddress>"

def updReqB : String :=
  "</t:EmailAddress></m:Mailbox>\n<m:DelegateUsers>\n<t:DelegateUser>\n<t:UserId><t:PrimarySmtpAddress>"

def updReqC : String :=
  "</t:PrimarySmtpAddress></t:UserId>\n<t:DelegatePermissions>\n<t:InboxFolderPermissionLevel>"

def updReqD : String :=
  "</t:InboxFolderPermissionLevel>\n</t:DelegatePermissions>\n</t:DelegateUser>\n</m:DelegateUsers>\n<m:DeliverMeetingRequests>DelegatesAndSendInformationToMe</m:DeliverMeetingRequests>\n</m:UpdateDelegate>\n</soap:Body>\n</soap:Envelope>"

/-- The `UpdateDelegate` request body (lines 179-196). -/
def update_delegate_request (owner_upn delegate_upn level : String) : String :=
  envelopeOpen ++ soap_header ++ updReqA ++ owner_upn ++ updReqB ++ delegate_upn ++
    updReqC ++ level ++ updReqD

/-- Modelled from the spec: the XML parsing collaborator accepts only
well-formed XML documents; in well-formed XML every `<` opens markup,
so it must be immediately followed by a name-start character
(letter, `_` or `:`) or by `/`, `!` or `?`.  `xmlLtOkAux` checks this
necessary condition of well-formedness over a character list; a text
failing it is not well-formed XML. -/
def xmlLtOkAux : List Char → Bool
  | [] => true
  | c :: rest =>
    if c == '<' then
      match rest with
      | [] => false
      | d :: _ =>
        (d.isAlpha || d == '/' || d == '!' || d == '?' || d == '_' || d == ':')
          && xmlLtOkAux rest
    else
      xmlLtOkAux rest

/-- The necessary well-formedness condition on a string. -/
def xmlLtOk (s : String) : Bool :=
  xmlLtOkAux s.data

/-! Concrete response documents used by the closed theorems and
witnesses. -/

/-- The namespace URI of the SOAP envelope, as a qualified-tag marker. -/
def nsS : String := "\x7bhttp://schemas.xmlsoap.org/soap/envelope/\x7d"

/-- The literal `GetDelegate` response of the spec's testable property:
two `DelegateUser` entries, `a@x.com` with
`InboxFolderPermissionLevel` `Reviewer` and `b@x.com` without an
`InboxFolderPermissionLevel` element. -/
def exampleGetDelegateRoot : Element :=
  .mk (nsS ++ "Envelope") [] none
    [.mk (nsS ++ "Body") [] none
      [.mk (nsM ++ "GetDelegateResponse") [("ResponseClass", "Success")] none
        [.mk (nsM ++ "ResponseMessages") [] none
          [.mk (nsM ++ "DelegateUserResponseMessageType") [("ResponseClass", "Success")] none
            [.mk tDelegateUser [] none
               [.mk tUserId [] none
                 [.mk tPrimarySmtpAddress [] (some "a@x.com") []],
                .mk tDelegatePermissions [] none
                 [.mk tInboxFolderPermissionLevel [] (some "Reviewer") []]],
             .mk tDelegateUser [] none
               [.mk tUserId [] none
                 [.mk tPrimarySmtpAddress [] (some "b@x.com") []]]]]]]]

/-- A `GetDelegate` response interleaving the two good entries of
`exampleGetDelegateRoot` with skippable ones: an entry with no
`PrimarySmtpAddress` element, one whose address text is empty, and one
whose address text is only whitespace; the second good address carries
upper-case letters. -/
def exampleGetDelegateMixedRoot : Element :=
  .mk (nsS ++ "Envelope") [] none
    [.mk (nsS ++ "Body") [] none
      [.mk (nsM ++ "GetDelegateResponse") [("ResponseClass", "Success")] none
        [.mk tDelegateUser [] none
           [.mk tUserId [] none []],
         .mk tDelegateUser [] none
           [.mk tUserId [] none
             [.mk tPrimarySmtpAddress [] (some "a@x.com") []],
            .mk tDelegatePermissions [] none
             [.mk tInboxFolderPermissionLevel [] (some "Reviewer") []]],
         .mk tDelegateUser [] none
           [.mk tUserId [] none
             [.mk tPrimarySmtpAddress [] (some "") []]],
         .mk tDelegateUser [] none
           [.mk tUserId [] none
             [.mk tPrimarySmtpAddress [] (some "  ") []]],
         .mk tDelegateUser [] none
           [.mk tUserId [] none
             [.mk tPrimarySmtpAddress [] (some "B@x.com") []]]]]]

/-- A well-formed `GetDelegate` error response: no `DelegateUser`
element anywhere, only an error response message with a
`ResponseCode`. -/
def exampleGetDelegateErrorRoot : Element :=
  .mk (nsS ++ "Envelope") [] none
    [.mk (nsS ++ "Body") [] none
      [.mk (nsM ++ "GetDelegateResponse") [("ResponseClass", "Error")] none
        [.mk (nsM ++ "MessageText") [] (some "Access is denied.") [],
         .mk (nsM ++ "ResponseCode") [] (some "ErrorAccessDenied") []]]]

/-- A successful `AddDelegate` response. -/
def exampleAddSuccessRoot : Element :=
  .mk (nsS ++ "Envelope") [] none
    [.mk (nsS ++ "Body") [] none
      [.mk (nsM ++ "AddDelegateResponse") [("ResponseClass", "Success")] none []]]

/-- A failed `UpdateDelegate` response carrying a `ResponseCode`. -/
def exampleUpdateErrorRoot : Element :=
  .mk (nsS ++ "Envelope") [] none
    [.mk (nsS ++ "Body") [] none
      [.mk (nsM ++ "UpdateDelegateResponse") [("ResponseClass", "Error")] none
        [.mk (nsM ++ "ResponseCode") [] (some "ErrorNotDelegate") []]]]

/-! Helper lemmas: how `ensure_inbox_reviewer` dispatches on the scan
result. -/

theorem ensure_of_find_none {σ : Type} (ops : EwsOps σ) (s : σ) (d : String)
    (hf : (ops.read s).find? (fun p => p.1 == pyLower d) = none) :
    ensure_inbox_reviewer ops s d
      = ((ops.add s d).1, (ops.add s d).2, [EwsWrite.addDelegate d]) := by
  rcases hadd : ops.add s d with ⟨s', r⟩
  simp [ensure_inbox_reviewer, hf, hadd]

theorem ensure_of_find_some_absent {σ : Type} (ops : EwsOps σ) (s : σ) (d addr : String)
    (hf : (ops.read s).find? (fun p => p.1 == pyLower d) = some (addr, none)) :
    ensure_inbox_reviewer ops s d
      = ((ops.add s d).1, (ops.add s d).2, [EwsWrite.addDelegate d]) := by
  rcases hadd : ops.add s d with ⟨s', r⟩
  simp [ensure_inbox_reviewer, hf, hadd]

theorem ensure_of_find_some_other {σ : Type} (ops : EwsOps σ) (s : σ) (d addr l : String)
    (hf : (ops.read s).find? (fun p => p.1 == pyLower d) = some (addr, some l))
    (hl : l ≠ "Reviewer") :
    ensure_inbox_reviewer ops s d
      = ((ops.update s d "Reviewer").1, (ops.update s d "Reviewer").2,
         [EwsWrite.updateDelegate d "Reviewer"]) := by
  rcases hupd : ops.update s d "Reviewer" with ⟨s', r⟩
  simp [ensure_inbox_reviewer, hf, hl, hupd]

theorem ensure_of_find_some_reviewer {σ : Type} (ops : EwsOps σ) (s : σ) (d addr : String)
    (hf : (ops.read s).find? (fun p => p.1 == pyLower d) = some (addr, some "Reviewer")) :
    ensure_inbox_reviewer ops s d = (s, (true, "Already Reviewer"), []) := by
  simp [ensure_inbox_reviewer, hf]

/-! Helper lemmas about the mock server's scan. -/

theorem mock_find_after_set (S : MockServer) (d lvl : String) :
    (mockRead (S.map (fun e => if pyLower e.1 == pyLower d then (e.1, some lvl) else e))).find?
        (fun p => p.1 == pyLower d)
      = ((mockRead S).find? (fun p => p.1 == pyLower d)).map (fun p => (p.1, some lvl)) := by
  induction S with
  | nil => rfl
  | cons e es ih =>
    by_cases h : pyLower e.1 = pyLower d
    · simp [mockRead, List.find?_cons, h]
    · simpa [mockRead, List.find?_cons, h] using ih

theorem mock_any_eq_isSome (S : MockServer) (d : String) :
    S.any (fun e => pyLower e.1 == pyLower d)
      = ((mockRead S).find? (fun p => p.1 == pyLower d)).isSome := by
  induction S with
  | nil => rfl
  | cons e es ih =>
    by_cases h : pyLower e.1 = pyLower d <;>
      simp [mockRead, List.find?_cons, h, ih]

theorem mock_find_after_append (S : MockServer) (d : String)
    (h : (mockRead S).find? (fun p => p.1 == pyLower d) = none) :
    (mockRead (S ++ [(d, some "Reviewer")])).find? (fun p => p.1 == pyLower d)
      = some (pyLower d, some "Reviewer") := by
  have hmap : mockRead (S ++ [(d, some "Reviewer")])
      = mockRead S ++ [(pyLower d, some "Reviewer")] := by
    simp [mockRead]
  rw [hmap, List.find?_append, h]
  simp [List.find?_cons]

/-- After a mock add, the scan for the target finds a Reviewer entry. -/
theorem mock_find_after_add (S : MockServer) (d : String) :
    ((mockRead (mockAdd S d).1).find? (fun p => p.1 == pyLower d)).bind
        (fun p => p.2) = some "Reviewer" := by
  cases hf : (mockRead S).find? (fun p => p.1 == pyLower d) with
  | none =>
    have hany : S.any (fun e => pyLower e.1 == pyLower d) = false := by
      rw [mock_any_eq_isSome, hf]; rfl
    have h1 : (mockAdd S d).1 = S ++ [(d, some "Reviewer")] := by
      simp [mockAdd, hany]
    rw [h1, mock_find_after_append S d hf]
    rfl
  | some p =>
    have hany : S.any (fun e => pyLower e.1 == pyLower d) = true := by
      rw [mock_any_eq_isSome, hf]; rfl
    have h1 : (mockAdd S d).1
        = S.map (fun e => if pyLower e.1 == pyLower d then (e.1, some "Reviewer") else e) := by
      simp [mockAdd, hany]
    rw [h1, mock_find_after_set, hf]
    rfl

/-- After a mock update to Reviewer, the scan for the target finds the
entry with level Reviewer whenever it found the entry before. -/
theorem mock_find_after_update (S : MockServer) (d addr : String) (l : Option String)
    (hf : (mockRead S).find? (fun p => p.1 == pyLower d) = some (addr, l)) :
    (mockRead (mockUpdate S d "Reviewer").1).find? (fun p => p.1 == pyLower d)
      = some (addr, some "Reviewer") := by
  have h1 : (mockUpdate S d "Reviewer").1
      = S.map (fun e => if pyLower e.1 == pyLower d then (e.1, some "Reviewer") else e) := rfl
  rw [h1, mock_find_after_set, hf]
  rfl

/-- C4: against the mock server (whose writes succeed and take
effect), two consecutive `ensure_inbox_reviewer` calls for the same
delegate both return success, the second call issues no write, and at
most one mutating call happens in total. -/
theorem ensure_mock_idempotent (S : MockServer) (d : String) :
    (ensure_inbox_reviewer mockOps S d).2.1.1 = true
    ∧ (ensure_inbox_reviewer mockOps (ensure_inbox_reviewer mockOps S d).1 d).2.1.1 = true
    ∧ (ensure_inbox_reviewer mockOps (ensure_inbox_reviewer mockOps S d).1 d).2.2 = []
    ∧ ((ensure_inbox_reviewer mockOps S d).2.2
        ++ (ensure_inbox_reviewer mockOps (ensure_inbox_reviewer mockOps S d).1 d).2.2).length
        ≤ 1 := by
  cases hf : (mockRead S).find? (fun p => p.1 == pyLower d) with
  | none =>
    have h1 : ensure_inbox_reviewer mockOps S d
        = ((mockAdd S d).1, (mockAdd S d).2, [EwsWrite.addDelegate d]) :=
      ensure_of_find_none mockOps S d hf
    have h2 := mock_find_after_add S d
    cases h2f : (mockRead (mockAdd S d).1).find? (fun p => p.1 == pyLower d) with
    | none => rw [h2f] at h2; exact absurd h2 (by simp)
    | some q =>
      rcases q with ⟨a2, l2⟩
      rw [h2f] at h2
      have hl2 : l2 = some "Reviewer" := by simpa using h2
      subst hl2
      have h3 := ensure_of_find_some_reviewer mockOps (mockAdd S d).1 d a2 h2f
      have hout : (mockAdd S d).2 = (true, "AddDelegate Success") := rfl
      rw [h1]
      simp [h3, hout]
  | some p =>
    rcases p with ⟨a, lvl⟩
    cases lvl with
    | none =>
      have h1 : ensure_inbox_reviewer mockOps S d
          = ((mockAdd S d).1, (mockAdd S d).2, [EwsWrite.addDelegate d]) :=
        ensure_of_find_some_absent mockOps S d a hf
      have h2 := mock_find_after_add S d
      cases h2f : (mockRead (mockAdd S d).1).find? (fun p => p.1 == pyLower d) with
      | none => rw [h2f] at h2; exact absurd h2 (by simp)
      | some q =>
        rcases q with ⟨a2, l2⟩
        rw [h2f] at h2
        have hl2 : l2 = some "Reviewer" := by simpa using h2
        subst hl2
        have h3 := ensure_of_find_some_reviewer mockOps (mockAdd S d).1 d a2 h2f
        have hout : (mockAdd S d).2 = (true, "AddDelegate Success") := rfl
        rw [h1]
        simp [h3, hout]
    | some l =>
      by_cases hl : l = "Reviewer"
      · subst hl
        have h1 := ensure_of_find_some_reviewer mockOps S d a hf
        simp [h1]
      · have h1 : ensure_inbox_reviewer mockOps S d
            = ((mockUpdate S d "Reviewer").1, (mockUpdate S d "Reviewer").2,
               [EwsWrite.updateDelegate d "Reviewer"]) :=
          ensure_of_find_some_other mockOps S d a l hf hl
        have h2 := mock_find_after_update S d a (some l) hf
        have h3 := ensure_of_find_some_reviewer mockOps (mockUpdate S d "Reviewer").1 d a h2
        have hout : (mockUpdate S d "Reviewer").2 = (true, "UpdateDelegate Success") := rfl
        rw [h1]
        simp [h3, hout]

/-- C2: whenever the scan of the read sequence first finds the target
delegate with inbox level exactly `"Reviewer"`, `ensure_inbox_reviewer`
issues no write at all — for an arbitrary server implementation the
state is returned unchanged and the write trace is empty — and the
outcome is success with the fixed `"Already Reviewer"` message. -/
theorem ensure_already_reviewer_no_write {σ : Type} (ops : EwsOps σ) (s : σ)
    (d addr : String)
    (h : (ops.read s).find? (fun p => p.1 == pyLower d) = some (addr, some "Reviewer")) :
    ensure_inbox_reviewer ops s d = (s, (true, "Already Reviewer"), []) :=
  ensure_of_find_some_reviewer ops s d addr h

/-- Witness for C2 at a concrete delegate list. -/
theorem ensure_already_reviewer_no_write_witness :
    ensure_inbox_reviewer (pureOps (false, "ADD") (false, "UPD"))
        [("x@y.com", some "Author"), ("d@x.com", some "Reviewer")] "D@x.com"
      = ([("x@y.com", some "Author"), ("d@x.com", some "Reviewer")],
         (true, "Already Reviewer"), []) :=
  ensure_already_reviewer_no_write (pureOps (false, "ADD") (false, "UPD"))
    [("x@y.com", some "Author"), ("d@x.com", some "Reviewer")] "D@x.com" "d@x.com"
    (by decide)

/-- C3: when no entry of the read sequence has the normalized target
address, `ensure_inbox_reviewer` issues exactly one `AddDelegate` call
(and no `UpdateDelegate`) and returns that call's outcome, for an
arbitrary server implementation. -/
theorem ensure_absent_issues_single_add {σ : Type} (ops : EwsOps σ) (s : σ) (d : String)
    (h : ∀ p ∈ ops.read s, ¬ p.1 = pyLower d) :
    ensure_inbox_reviewer ops s d
      = ((ops.add s d).1, (ops.add s d).2, [EwsWrite.addDelegate d]) := by
  refine ensure_of_find_none ops s d ?_
  simp only [List.find?_eq_none, beq_iff_eq]
  exact h

/-- Witness for C3 at a concrete delegate list. -/
theorem ensure_absent_issues_single_add_witness :
    ensure_inbox_reviewer (pureOps (true, "ADD") (false, "UPD"))
        [("x@y.com", some "Author")] "d@x.com"
      = ([("x@y.com", some "Author")], (true, "ADD"),
         [EwsWrite.addDelegate "d@x.com"]) :=
  ensure_absent_issues_single_add (pureOps (true, "ADD") (false, "UPD"))
    [("x@y.com", some "Author")] "d@x.com" (by decide)

/-- C1 counterexample: with the delegate list `[("d@x.com", none)]` —
the target delegate present but with no recorded inbox permission
level — `ensure_inbox_reviewer` issues an `AddDelegate` call and
returns the add outcome, not an `UpdateDelegate` call: `found_level`
stays `None` for a matching entry with absent level, which the code
cannot distinguish from "no matching entry". -/
theorem ensure_absent_level_counterexample :
    ensure_inbox_reviewer (pureOps (false, "ADD") (true, "UPD"))
        [("d@x.com", none)] "d@x.com"
      = ([("d@x.com", none)], (false, "ADD"), [EwsWrite.addDelegate "d@x.com"])
    ∧ (ensure_inbox_reviewer (pureOps (false, "ADD") (true, "UPD"))
          [("d@x.com", none)] "d@x.com").2.2
        ≠ [EwsWrite.updateDelegate "d@x.com" "Reviewer"] := by
  exact ⟨rfl, by decide⟩

/-- C1 (amended): when the first matching entry's recorded level is
present and differs from `"Reviewer"`, `ensure_inbox_reviewer` calls
the update operation with level `"Reviewer"` and returns its outcome,
issuing no add; when the matching entry's level is absent, the code
treats it like a missing delegate and calls the add operation
instead. -/
theorem ensure_nonreviewer_level_dispatch :
    (∀ {σ : Type} (ops : EwsOps σ) (s : σ) (d addr l : String),
        (ops.read s).find? (fun p => p.1 == pyLower d) = some (addr, some l) →
        l ≠ "Reviewer" →
        ensure_inbox_reviewer ops s d
          = ((ops.update s d "Reviewer").1, (ops.update s d "Reviewer").2,
             [EwsWrite.updateDelegate d "Reviewer"]))
    ∧ (∀ {σ : Type} (ops : EwsOps σ) (s : σ) (d addr : String),
        (ops.read s).find? (fun p => p.1 == pyLower d) = some (addr, none) →
        ensure_inbox_reviewer ops s d
          = ((ops.add s d).1, (ops.add s d).2, [EwsWrite.addDelegate d])) :=
  ⟨fun ops s d addr l hf hl => ensure_of_find_some_other ops s d addr l hf hl,
   fun ops s d addr hf => ensure_of_find_some_absent ops s d addr hf⟩

/-- Witness for C1 (amended) at a concrete delegate list with level
`"Author"`. -/
theorem ensure_nonreviewer_level_dispatch_witness :
    ensure_inbox_reviewer (pureOps (false, "ADD") (true, "UPD"))
        [("d@x.com", some "Author")] "d@x.com"
      = ([("d@x.com", some "Author")], (true, "UPD"),
         [EwsWrite.updateDelegate "d@x.com" "Reviewer"]) :=
  ensure_nonreviewer_level_dispatch.1 (pureOps (false, "ADD") (true, "UPD"))
    [("d@x.com", some "Author")] "d@x.com" "d@x.com" "Author" (by decide) (by decide)

/-- C5: a well-formed `GetDelegate` response with no `DelegateUser`
element anywhere — in particular a well-formed error response — makes
`get_inbox_level` yield the empty sequence (no error is raised), so
`ensure_inbox_reviewer` treats it like "no delegates exist" and issues
an `AddDelegate` call, returning its outcome. -/
theorem get_inbox_level_empty_on_no_delegates (root : Element) (d : String)
    (addRes updRes : Bool × String)
    (h : ∀ e ∈ root.descendants, ¬ e.tag = tDelegateUser) :
    get_inbox_level root = []
    ∧ ensure_inbox_reviewer (pureOps addRes updRes) (get_inbox_level root) d
        = ([], addRes, [EwsWrite.addDelegate d]) := by
  have h0 : get_inbox_level root = [] := by
    unfold get_inbox_level Element.findallDesc
    rw [List.filter_eq_nil_iff.mpr (by simpa using h)]
    rfl
  refine ⟨h0, ?_⟩
  rw [h0]
  exact ensure_of_find_none (pureOps addRes updRes) [] d rfl

/-- Witness for C5 at the concrete error response. -/
theorem get_inbox_level_empty_on_no_delegates_witness :
    get_inbox_level exampleGetDelegateErrorRoot = []
    ∧ ensure_inbox_reviewer (pureOps (true, "ADD") (false, "UPD"))
        (get_inbox_level exampleGetDelegateErrorRoot) "d@x.com"
      = ([], (true, "ADD"), [EwsWrite.addDelegate "d@x.com"]) :=
  get_inbox_level_empty_on_no_delegates exampleGetDelegateErrorRoot "d@x.com"
    (true, "ADD") (false, "UPD") (by decide)

/-! Error classification (C6) -/

/-- C6 counterexample: a 302 redirect response is a non-2xx status,
yet `post_ews` raises nothing at all — `raise_for_status` only raises
for statuses in 400-599 — so the claimed `TransportError` on "any
other non-2xx status" does not happen. -/
theorem post_ews_redirect_counterexample :
    post_ews { status := 302, wwwAuthenticate := none, text := "<x/>" } = .ok "<x/>"
    ∧ post_ews { status := 302, wwwAuthenticate := none, text := "<x/>" }
        ≠ .error (.transportError 302) :=
  ⟨rfl, fun h => nomatch h⟩

/-- C6 (amended): the transport raise sites classify as follows — a
401 status raises the authentication error with the
`WWW-Authenticate` header value in the message; any other status in
400-599 raises the transport error; statuses outside 400-599 do not
raise on status at all, and for them an HTML-prefixed body raises the
protocol error carrying the first 100 characters of the body; a body
that passes these checks but fails XML parsing raises the
malformed-response error. -/
theorem post_ews_error_classification :
    (∀ (resp : HttpResponse) (hdr : String),
        resp.status = 401 → resp.wwwAuthenticate = some hdr →
        ∃ p, post_ews resp = .error (.authenticationError (p ++ hdr)))
    ∧ (∀ resp : HttpResponse,
        resp.status ≠ 401 → 400 ≤ resp.status → resp.status < 600 →
        post_ews resp = .error (.transportError resp.status))
    ∧ (∀ resp : HttpResponse,
        resp.status ≠ 401 → ¬(400 ≤ resp.status ∧ resp.status < 600) →
        (pyStartsWith (pyStrip resp.text) "<!DOCTYPE HTML"
          || pyStartsWith (pyStrip resp.text) "<html") = true →
        ∃ p, post_ews resp = .error (.protocolError (p ++ pyTake resp.text 100)))
    ∧ (∀ (resp : HttpResponse) (fromstring : String → Option Element),
        post_ews resp = .ok resp.text → fromstring resp.text = none →
        fetch_and_parse resp fromstring = .error .malformedResponseError) := by
  refine ⟨?_, ?_, ?_, ?_⟩
  · intro resp hdr h hw
    exact ⟨"401 Unauthorized. WWW-Authenticate: ", by simp [post_ews, h, hw]⟩
  · intro resp h401 hlo hhi
    simp [post_ews, h401, hlo, hhi]
  · intro resp h401 hmid hhtml
    refine ⟨"Received HTML response instead of XML. This typically indicates an authentication issue or incorrect EWS URL. Check your credentials and URL. First 100 chars: ",
      ?_⟩
    simp [post_ews, h401, hmid, hhtml]
  · intro resp fromstring hok hparse
    simp [fetch_and_parse, hok, hparse]

/-- Witness for C6 (amended) at four concrete responses. -/
theorem post_ews_error_classification_witness :
    (∃ p, post_ews { status := 401, wwwAuthenticate := some "NTLM", text := "" }
        = .error (.authenticationError (p ++ "NTLM")))
    ∧ post_ews { status := 500, wwwAuthenticate := none, text := "boom" }
        = .error (.transportError 500)
    ∧ (∃ p, post_ews { status := 200, wwwAuthenticate := none, text := "<html><body>Sign in</body></html>" }
        = .error (.protocolError (p ++ pyTake "<html><body>Sign in</body></html>" 100)))
    ∧ fetch_and_parse { status := 200, wwwAuthenticate := none, text := "<truncated" }
        (fun _ => none) = .error .malformedResponseError :=
  ⟨post_ews_error_classification.1
      { status := 401, wwwAuthenticate := some "NTLM", text := "" } "NTLM" rfl rfl,
   post_ews_error_classification.2.1
      { status := 500, wwwAuthenticate := none, text := "boom" }
      (by decide) (by decide) (by decide),
   post_ews_error_classification.2.2.1
      { status := 200, wwwAuthenticate := none,
        text := "<html><body>Sign in</body></html>" }
      (by decide) (by decide) (by decide),
   post_ews_error_classification.2.2.2
      { status := 200, wwwAuthenticate := none, text := "<truncated" }
      (fun _ => none) rfl rfl⟩

/-! Write-response classification (C7) -/

theorem add_parse_spec (root : Element) :
    ((add_delegate_inbox_reviewer_parse root).1 = true
      ↔ ∃ e, root.findDesc mAddDelegateResponse = some e
          ∧ e.attrGet "ResponseClass" = some "Success")
    ∧ ((add_delegate_inbox_reviewer_parse root).1 = true →
        add_delegate_inbox_reviewer_parse root = (true, some "AddDelegate Success"))
    ∧ ((add_delegate_inbox_reviewer_parse root).1 = false →
        add_delegate_inbox_reviewer_parse root
          = (false, match root.findDesc mResponseCode with
                    | some code => code.text
                    | none => some "UnknownError")) := by
  cases hr : root.findDesc mAddDelegateResponse with
  | none => simp [add_delegate_inbox_reviewer_parse, hr]
  | some e =>
    by_cases ha : e.attrGet "ResponseClass" = some "Success" <;>
      simp [add_delegate_inbox_reviewer_parse, hr, ha]

theorem update_parse_spec (root : Element) :
    ((update_delegate_inbox_parse root).1 = true
      ↔ ∃ e, root.findDesc mUpdateDelegateResponse = some e
          ∧ e.attrGet "ResponseClass" = some "Success")
    ∧ ((update_delegate_inbox_parse root).1 = true →
        update_delegate_inbox_parse root = (true, some "UpdateDelegate Success"))
    ∧ ((update_delegate_inbox_parse root).1 = false →
        update_delegate_inbox_parse root
          = (false, match root.findDesc mResponseCode with
                    | some code => code.text
                    | none => some "UnknownError")) := by
  cases hr : root.findDesc mUpdateDelegateResponse with
  | none => simp [update_delegate_inbox_parse, hr]
  | some e =>
    by_cases ha : e.attrGet "ResponseClass" = some "Success" <;>
      simp [update_delegate_inbox_parse, hr, ha]

/-- C7: for both write operations, the parsed outcome is success
(with the fixed success message) exactly when the respective
`*Response` element is found and carries the attribute
`ResponseClass="Success"`; otherwise the outcome is `false` paired
with the text of the first `ResponseCode` element, or the fixed
`"UnknownError"` token when no such element exists. -/
theorem write_outcome_classification (root : Element) :
    ((add_delegate_inbox_reviewer_parse root).1 = true
      ↔ ∃ e, root.findDesc mAddDelegateResponse = some e
          ∧ e.attrGet "ResponseClass" = some "Success")
    ∧ ((add_delegate_inbox_reviewer_parse root).1 = true →
        add_delegate_inbox_reviewer_parse root = (true, some "AddDelegate Success"))
    ∧ ((add_delegate_inbox_reviewer_parse root).1 = false →
        add_delegate_inbox_reviewer_parse root
          = (false, match root.findDesc mResponseCode with
                    | some code => code.text
                    | none => some "UnknownError"))
    ∧ ((update_delegate_inbox_parse root).1 = true
      ↔ ∃ e, root.findDesc mUpdateDelegateResponse = some e
          ∧ e.attrGet "ResponseClass" = some "Success")
    ∧ ((update_delegate_inbox_parse root).1 = true →
        update_delegate_inbox_parse root = (true, some "UpdateDelegate Success"))
    ∧ ((update_delegate_inbox_parse root).1 = false →
        update_delegate_inbox_parse root
          = (false, match root.findDesc mResponseCode with
                    | some code => code.text
                    | none => some "UnknownError")) :=
  ⟨(add_parse_spec root).1, (add_parse_spec root).2.1, (add_parse_spec root).2.2,
   (update_parse_spec root).1, (update_parse_spec root).2.1, (update_parse_spec root).2.2⟩

/-- Witness for C7 at a concrete success and a concrete failure
response. -/
theorem write_outcome_classification_witness :
    add_delegate_inbox_reviewer_parse exampleAddSuccessRoot
      = (true, some "AddDelegate Success")
    ∧ update_delegate_inbox_parse exampleUpdateErrorRoot
      = (false, some "ErrorNotDelegate") :=
  ⟨(write_outcome_classification exampleAddSuccessRoot).2.1 (by decide),
   (write_outcome_classification exampleUpdateErrorRoot).2.2.2.2.2 (by decide)⟩

/-! Delegate-list parsing (C8) -/

/-- C8: on the literal `GetDelegate` response with entries `a@x.com`
(Reviewer) and `b@x.com` (no inbox level), `get_inbox_level` yields
exactly `[("a@x.com", some "Reviewer"), ("b@x.com", none)]`; and with
skippable entries interleaved (missing address element, empty address
text, whitespace-only address text) and the second address written
`B@x.com`, it still yields exactly those two pairs, lower-cased and in
document order. -/
theorem get_inbox_level_literal :
    get_inbox_level exampleGetDelegateRoot
      = [("a@x.com", some "Reviewer"), ("b@x.com", none)]
    ∧ get_inbox_level exampleGetDelegateMixedRoot
      = [("a@x.com", some "Reviewer"), ("b@x.com", none)] :=
  ⟨rfl, by decide⟩

/-! Case-insensitive matching (C9) -/

/-- C9: the scan of `ensure_inbox_reviewer` matches addresses
case-insensitively: the read emits every stored address lower-cased
and the scan compares against the lower-cased target, so a stored
record whose address agrees with the target up to ASCII case is
found. -/
theorem scan_match_case_insensitive (S : MockServer) (stored target : String)
    (l : Option String) (hmem : (stored, l) ∈ S)
    (hcase : pyLower stored = pyLower target) :
    ((mockRead S).find? (fun p => p.1 == pyLower target)).isSome = true := by
  have hx : ∃ x, x ∈ mockRead S ∧ (x.1 == pyLower target) = true :=
    ⟨(pyLower stored, l), List.mem_map.mpr ⟨(stored, l), hmem, rfl⟩, by simpa using hcase⟩
  simpa [List.find?_isSome] using hx

/-- Witness for C9: stored `John@Example.com`, queried as
`john@example.com`. -/
theorem scan_match_case_insensitive_witness :
    ((mockRead [("John@Example.com", some "Reviewer")]).find?
        (fun p => p.1 == pyLower "john@example.com")).isSome = true :=
  scan_match_case_insensitive [("John@Example.com", some "Reviewer")]
    "John@Example.com" "john@example.com" (some "Reviewer") (by decide) (by decide)

/-! Verbatim interpolation (C10) -/

set_option maxRecDepth 20000 in
/-- C10: the request builders interpolate the owner address, the
delegate address, the permission level and the meeting-delivery string
verbatim into the SOAP body — each input occurs in the built body
character for character — and no XML escaping happens, so the delegate
address `"<"` yields an `AddDelegate` body violating `xmlLtOk`, a
necessary condition of XML well-formedness. -/
theorem request_builders_verbatim :
    (∀ (owner delegate : String) (rc vp : Bool) (dm : String),
        (∃ p q, add_delegate_request owner delegate rc vp dm = p ++ owner ++ q)
        ∧ (∃ p q, add_delegate_request owner delegate rc vp dm = p ++ delegate ++ q)
        ∧ (∃ p q, add_delegate_request owner delegate rc vp dm = p ++ dm ++ q))
    ∧ (∀ owner delegate level : String,
        (∃ p q, update_delegate_request owner delegate level = p ++ owner ++ q)
        ∧ (∃ p q, update_delegate_request owner delegate level = p ++ delegate ++ q)
        ∧ (∃ p q, update_delegate_request owner delegate level = p ++ level ++ q))
    ∧ (∀ owner : String, ∃ p q, get_delegate_request owner = p ++ owner ++ q)
    ∧ xmlLtOk (add_delegate_request "owner@x.com" "<" false false
        "DelegatesAndSendInformationToMe") = false := by
  refine ⟨?_, ?_, ?_, ?_⟩
  · intro owner delegate rc vp dm
    refine ⟨⟨envelopeOpen ++ soap_header ++ addReqA,
        addReqB ++ delegate ++ addReqC ++ pyBoolStr rc ++ addReqD ++ pyBoolStr vp ++
          addReqE ++ dm ++ addReqF, ?_⟩,
      ⟨envelopeOpen ++ soap_header ++ addReqA ++ owner ++ addReqB,
        addReqC ++ pyBoolStr rc ++ addReqD ++ pyBoolStr vp ++ addReqE ++ dm ++ addReqF, ?_⟩,
      ⟨envelopeOpen ++ soap_header ++ addReqA ++ owner ++ addReqB ++ delegate ++
          addReqC ++ pyBoolStr rc ++ addReqD ++ pyBoolStr vp ++ addReqE,
        addReqF, ?_⟩⟩ <;>
      simp [add_delegate_request, String.append_assoc]
  · intro owner delegate level
    refine ⟨⟨envelopeOpen ++ soap_header ++ updReqA,
        updReqB ++ delegate ++ updReqC ++ level ++ updReqD, ?_⟩,
      ⟨envelopeOpen ++ soap_header ++ updReqA ++ owner ++ updReqB,
        updReqC ++ level ++ updReqD, ?_⟩,
      ⟨envelopeOpen ++ soap_header ++ updReqA ++ owner ++ updReqB ++ delegate ++ updReqC,
        updReqD, ?_⟩⟩ <;>
      simp [update_delegate_request, String.append_assoc]
  · intro owner
    exact ⟨envelopeOpen ++ soap_header ++ getReqA, getReqB,
      by simp [get_delegate_request, String.append_assoc]⟩
  · decide

end EwsDelegation
